import Mathlib

/-!
Verification development for the vcloudtools client library
(`vcloudtools/vcloud.py` and `vcloudtools/api.py`).

The Python code is shallowly embedded: XML elements become an inductive
tree, `namedtuple` records become structures, Python `dict` /
`collections.defaultdict` become association lists preserving insertion
order, and every operation that can raise becomes a function into
`Except VCError`.  The HTTP transport is abstracted as an oracle
`fetch : String → String → HttpResponse` mapping a method and a URL to
the (already XML-parsed) response.
-/

set_option autoImplicit false

namespace VCloudTools

/-- Python exception kinds that the embedded code can raise.  `clientError`
and `apiError` are the two exception classes defined by `api.py`;
`keyError`, `attributeError`, `typeError` and `indexError` model the
builtin Python exceptions that the code can hit; `notFound` models the
`NotFoundError` kind named by the specification (never raised by the
code itself). -/
inductive VCError where
  | clientError (msg : String)
  | apiError (msg : String)
  | keyError (key : String)
  | attributeError (msg : String)
  | typeError (msg : String)
  | indexError (msg : String)
  | notFound (msg : String)
  deriving DecidableEq, Repr

instance exceptDecEq {ε α : Type} [DecidableEq ε] [DecidableEq α] :
    DecidableEq (Except ε α) := fun a b =>
  match a, b with
  | .error e, .error f =>
      if h : e = f then isTrue (by rw [h])
      else isFalse (by intro hh; cases hh; exact h rfl)
  | .error _, .ok _ => isFalse (by intro hh; cases hh)
  | .ok _, .error _ => isFalse (by intro hh; cases hh)
  | .ok x, .ok y =>
      if h : x = y then isTrue (by rw [h])
      else isFalse (by intro hh; cases hh; exact h rfl)

/-- An XML element as produced by `lxml.etree`: fully-qualified tag
(`\x7bnamespace-uri\x7dLocalName`), attributes, text content (`None`
for an empty element) and child elements, in document order. -/
inductive XmlElem where
  | mk (tag : String) (attribs : List (String × String))
      (text : Option String) (children : List XmlElem)

def XmlElem.tag : XmlElem → String
  | .mk t _ _ _ => t

def XmlElem.attribs : XmlElem → List (String × String)
  | .mk _ a _ _ => a

def XmlElem.text : XmlElem → Option String
  | .mk _ _ t _ => t

def XmlElem.children : XmlElem → List XmlElem
  | .mk _ _ _ c => c

/-- The vCloud namespace URI (`VCLOUD_NS` in `api.py`). -/
def vcloudNS : String := "http://www.vmware.com/vcloud/v1.5"

/-- Resolution of a `vcloud:`-prefixed tag to the fully-qualified form
used by lxml, e.g. `vcloud:Link` ↦ `\x7b...vcloud/v1.5\x7dLink`. -/
def vcTag (localPart : String) : String :=
  "\x7b" ++ vcloudNS ++ "\x7d" ++ localPart

/-- Model of `el.findall("vcloud:T", VCLOUD_NS)`: all direct children with the
given fully-qualified tag, in document order. -/
def XmlElem.findall (el : XmlElem) (t : String) : List XmlElem :=
  el.children.filter (fun c => c.tag = t)

/-- Model of `el.find("vcloud:T", VCLOUD_NS)`: the first direct child with the
given fully-qualified tag, or `None`. -/
def XmlElem.find (el : XmlElem) (t : String) : Option XmlElem :=
  (el.findall t).head?

/-- Association-list lookup: the value stored under the first occurrence
of the key (models `d[k]` read / `k in d` on a Python dict, whose keys
are unique, and on our defaultdict encoding). -/
def alookup {β : Type} : List (String × β) → String → Option β
  | [], _ => none
  | (k0, v) :: rest, k => if k0 = k then some v else alookup rest k

/-- Python `d[k] = v` on a dict encoded as an association list: update
the existing entry in place (keeping its position) or append a fresh
entry at the end, as Python dicts preserve insertion order. -/
def dictSet {β : Type} : List (String × β) → String → β → List (String × β)
  | [], k, v => [(k, v)]
  | (k0, v0) :: rest, k, v =>
      if k0 = k then (k0, v) :: rest else (k0, v0) :: dictSet rest k v

/-- Model of `defaultdict(list)`: `d[k].append(x)` — append `x` to the list under
`k`, creating the entry at the end if the key is new. -/
def ddAppend {β : Type} : List (String × List β) → String → β → List (String × List β)
  | [], k, x => [(k, [x])]
  | (k0, vs) :: rest, k, x =>
      if k0 = k then (k0, vs ++ [x]) :: rest else (k0, vs) :: ddAppend rest k x

/-- The list stored under a key, `[]` when the key is absent. -/
def ddFindD {β : Type} (d : List (String × List β)) (k : String) : List β :=
  (alookup d k).getD []

/-- Model of `defaultdict(list).__getitem__`: reading a key returns its list, but
when the key is absent it additionally INSERTS an empty entry for the
key (this is the Python defaultdict side effect, made explicit as a
returned updated mapping). -/
def ddGetItem {β : Type} (d : List (String × List β)) (k : String) :
    List β × List (String × List β) :=
  match alookup d k with
  | some vs => (vs, d)
  | none => ([], d ++ [(k, [])])

/-- The grouping loop shared by `_parse_links` and
`_parse_resource_entities`: fold the items into a `defaultdict(list)`
keyed by the own key of each item, in document order. -/
def groupByKey {β : Type} (key : β → String) (items : List β) :
    List (String × List β) :=
  items.foldl (fun d it => ddAppend d (key it) it) []

/-! ## Record layer (`vcloudtools/vcloud.py`) -/

/-- Model of `Link` namedtuple: `type href rel name`, with `name` defaulting to
`None`. -/
structure Link where
  type : String
  href : String
  rel : String
  name : Option String
  deriving DecidableEq, Repr

/-- Model of `ResourceEntity` namedtuple: `type href name`, with `name`
defaulting to `None`. -/
structure ResourceEntity where
  type : String
  href : String
  name : Option String
  deriving DecidableEq, Repr

/-- A `LinkIndex` maps a full media-type string to the links of that
type, in insertion order (a `defaultdict(list)` in the source). -/
def LinkIndex : Type := List (String × List Link)

/-- An `EntityIndex` maps a full media-type string to the resource
entities of that type, in insertion order. -/
def EntityIndex : Type := List (String × List ResourceEntity)

instance : DecidableEq LinkIndex := by
  unfold LinkIndex
  infer_instance

instance : DecidableEq EntityIndex := by
  unfold EntityIndex
  infer_instance

/-- Model of `Org` namedtuple: `type href name id full_name description links`,
everything after `name` defaulting to `None`. -/
structure Org where
  type : String
  href : String
  name : String
  id : Option String
  full_name : Option String
  description : Option String
  links : Option LinkIndex
  deriving DecidableEq

/-- The cpu/memory halves of the `compute` capacity dict built by
`_parse_org_vdcs` (`\x7b"cpu": \x7b...\x7d, "memory": \x7b...\x7d\x7d`).
Capacity values are raw element text, possibly `None`. -/
structure ComputeCap where
  cpu : List (String × Option String)
  memory : List (String × Option String)
  deriving DecidableEq

/-- Model of `OrgVdc` namedtuple: `type href name id storage compute links
entities`, everything after `name` defaulting to `None`. -/
structure OrgVdc where
  type : String
  href : String
  name : String
  id : Option String
  storage : Option (List (String × Option String))
  compute : Option ComputeCap
  links : Option LinkIndex
  entities : Option EntityIndex
  deriving DecidableEq

/-- Model of `OrgList` namedtuple: `orgs`. -/
structure OrgList where
  orgs : List Org
  deriving DecidableEq

/-- The loop body of `OrgList.org_by_name`: scan the orgs in order and
return the first whose `name` equals the argument, else `None`. -/
def orgByNameLoop : List Org → String → Option Org
  | [], _ => none
  | o :: os, n => if o.name = n then some o else orgByNameLoop os n

/-- Model of `OrgList.org_by_name`. -/
def OrgList.org_by_name (ol : OrgList) (n : String) : Option Org :=
  orgByNameLoop ol.orgs n

/-- Model of `ExtNet` namedtuple: `type href name config id description links`,
everything after `name` defaulting to `None`.  `config` holds a raw XML
fragment (the `Configuration` element), stored as-is. -/
structure ExtNet where
  type : String
  href : String
  name : String
  config : Option XmlElem
  id : Option String
  description : Option String
  links : Option LinkIndex

/-- Model of `ExtNetList` namedtuple: `ext_nets`. -/
structure ExtNetList where
  ext_nets : List ExtNet

/-- The loop body of `ExtNetList.ext_net_by_name`. -/
def extNetByNameLoop : List ExtNet → String → Option ExtNet
  | [], _ => none
  | en :: ens, n => if en.name = n then some en else extNetByNameLoop ens n

/-- Model of `ExtNetList.ext_net_by_name`. -/
def ExtNetList.ext_net_by_name (l : ExtNetList) (n : String) : Option ExtNet :=
  extNetByNameLoop l.ext_nets n

/-- Model of `IpRange` namedtuple: `first last`. -/
structure IpRange where
  first : String
  last : String
  deriving DecidableEq

/-- Model of `OrgNet` namedtuple: `name gateway netmask dns ranges`.  The
gateway/netmask/dns fields are element text and may be `None`. -/
structure OrgNet where
  name : String
  gateway : Option String
  netmask : Option String
  dns : Option String
  ranges : List IpRange
  deriving DecidableEq

/-! ## Keyword-splat constructors

`_parse_link` et al. build records with `Record(**el.attrib)`.  Python
raises `TypeError` when a required argument is missing or an unexpected
keyword is supplied; optional arguments absent from the attribute dict
take their `None` default.  (Structured fields such as `links`/`config`
can never be populated from string-valued XML attributes; an attribute
carrying such a name is modelled as rejected.) -/

/-- Model of `Link(**attribs)`: `type`, `href`, `rel` required, `name` optional. -/
def mkLinkKw (attribs : List (String × String)) : Except VCError Link :=
  match alookup attribs "type", alookup attribs "href", alookup attribs "rel" with
  | some t, some h, some r =>
      if attribs.all (fun kv => ["type", "href", "rel", "name"].contains kv.1) then
        .ok ⟨t, h, r, alookup attribs "name"⟩
      else
        .error (.typeError "unexpected keyword argument")
  | _, _, _ => .error (.typeError "missing required argument")

/-- Model of `ResourceEntity(**attribs)`: `type`, `href` required, `name`
optional. -/
def mkResourceEntityKw (attribs : List (String × String)) : Except VCError ResourceEntity :=
  match alookup attribs "type", alookup attribs "href" with
  | some t, some h =>
      if attribs.all (fun kv => ["type", "href", "name"].contains kv.1) then
        .ok ⟨t, h, alookup attribs "name"⟩
      else
        .error (.typeError "unexpected keyword argument")
  | _, _ => .error (.typeError "missing required argument")

/-- Model of `Org(**attribs)`: `type`, `href`, `name` required; `id`,
`full_name`, `description` optional. -/
def mkOrgKw (attribs : List (String × String)) : Except VCError Org :=
  match alookup attribs "type", alookup attribs "href", alookup attribs "name" with
  | some t, some h, some n =>
      if attribs.all (fun kv =>
          ["type", "href", "name", "id", "full_name", "description"].contains kv.1) then
        .ok ⟨t, h, n, alookup attribs "id", alookup attribs "full_name",
             alookup attribs "description", none⟩
      else
        .error (.typeError "unexpected keyword argument")
  | _, _, _ => .error (.typeError "missing required argument")

/-- Model of `ExtNet(**attribs)`: `type`, `href`, `name` required; `id`,
`description` optional. -/
def mkExtNetKw (attribs : List (String × String)) : Except VCError ExtNet :=
  match alookup attribs "type", alookup attribs "href", alookup attribs "name" with
  | some t, some h, some n =>
      if attribs.all (fun kv =>
          ["type", "href", "name", "id", "description"].contains kv.1) then
        .ok ⟨t, h, n, none, alookup attribs "id", alookup attribs "description", none⟩
      else
        .error (.typeError "unexpected keyword argument")
  | _, _, _ => .error (.typeError "missing required argument")

/-! ## XML decoders (`api.py`) -/

/-- Message of a Python `AttributeError` raised by using `None` as an
element (e.g. `None.text`, `None.find(...)`, `None.findall(...)`). -/
def noneAttrMsg : String :=
  "\x27NoneType\x27 object has no attribute"

/-- Message of the Python `TypeError` raised by `for k in None`. -/
def noneNotIterableMsg : String :=
  "\x27NoneType\x27 object is not iterable"

/-- Model of `el.attrib["k"]`: the value of the attribute, `KeyError` when absent. -/
def attribGet (el : XmlElem) (k : String) : Except VCError String :=
  match alookup el.attribs k with
  | some v => .ok v
  | none => .error (.keyError k)

/-- Model of `el.find("vcloud:T", NS).text`: `AttributeError` when the child is
absent, otherwise its (possibly `None`) text. -/
def textOfFind (el : XmlElem) (localPart : String) : Except VCError (Option String) :=
  match el.find (vcTag localPart) with
  | some c => .ok c.text
  | none => .error (.attributeError noneAttrMsg)

/-- Model of `_parse_link`: `Link(**el.attrib)`. -/
def parse_link (el : XmlElem) : Except VCError Link :=
  mkLinkKw el.attribs

/-- Model of `_parse_resource_entity`: `ResourceEntity(**el.attrib)`. -/
def parse_resource_entity (el : XmlElem) : Except VCError ResourceEntity :=
  mkResourceEntityKw el.attribs

/-- Model of `_parse_links`: parse every `vcloud:Link` child in document order
and group the links into a `defaultdict(list)` keyed by the own
`type` field of each link. -/
def parse_links (el : XmlElem) : Except VCError LinkIndex := do
  let links ← (el.findall (vcTag "Link")).mapM parse_link
  return groupByKey (fun l => l.type) links

/-- Model of `_parse_resource_entities`: find the `vcloud:ResourceEntities`
container (`AttributeError` on the subsequent `findall` when absent),
parse every `vcloud:ResourceEntity` child in document order and group
by the own `type` field of each entity. -/
def parse_resource_entities (el : XmlElem) : Except VCError EntityIndex := do
  match el.find (vcTag "ResourceEntities") with
  | none => .error (.attributeError noneAttrMsg)
  | some container => do
      let es ← (container.findall (vcTag "ResourceEntity")).mapM parse_resource_entity
      return groupByKey (fun e => e.type) es

/-- Model of `_parse_org_short`: `Org(**el.attrib)`. -/
def parse_org_short (el : XmlElem) : Except VCError Org :=
  mkOrgKw el.attribs

/-- Model of `_parse_ext_net_short`: `ExtNet(**el.attrib)`. -/
def parse_ext_net_short (el : XmlElem) : Except VCError ExtNet :=
  mkExtNetKw el.attribs

/-- Model of `_parse_org_list`: one `Org` summary per `vcloud:Org` child. -/
def parse_org_list (el : XmlElem) : Except VCError OrgList := do
  let orgs ← (el.findall (vcTag "Org")).mapM parse_org_short
  return ⟨orgs⟩

/-- Model of `_parse_ext_net_list`: `el.find("vcloud:Networks")` then one
`ExtNet` summary per `vcloud:Network` child (`AttributeError` when the
`Networks` container is absent). -/
def parse_ext_net_list (el : XmlElem) : Except VCError ExtNetList := do
  match el.find (vcTag "Networks") with
  | none => .error (.attributeError noneAttrMsg)
  | some container => do
      let ens ← (container.findall (vcTag "Network")).mapM parse_ext_net_short
      return ⟨ens⟩

/-- Model of `_parse_org`: mandatory attributes `type`, `href`, `name` AND `id`
(read with `el.attrib[...]`, so `KeyError` when absent), mandatory
`FullName` and `Description` children (read with `.find(...).text`, so
`AttributeError` when absent), then the link index. -/
def parse_org (el : XmlElem) : Except VCError Org := do
  let type_ ← attribGet el "type"
  let href ← attribGet el "href"
  let name ← attribGet el "name"
  let id_ ← attribGet el "id"
  let full_name ← textOfFind el "FullName"
  let description ← textOfFind el "Description"
  let links ← parse_links el
  return ⟨type_, href, name, some id_, full_name, description, some links⟩

/-- Model of `_parse_ext_net`: mandatory attributes `type`, `href`, `name` AND
`id`, mandatory `Description` child (via `.find(...).text`), optional
`Configuration` child stored raw, then the link index. -/
def parse_ext_net (el : XmlElem) : Except VCError ExtNet := do
  let type_ ← attribGet el "type"
  let href ← attribGet el "href"
  let name ← attribGet el "name"
  let id_ ← attribGet el "id"
  let description ← textOfFind el "Description"
  let config := el.find (vcTag "Configuration")
  let links ← parse_links el
  return ⟨type_, href, name, config, some id_, description, some links⟩

/-- Model of `k.tag.split("\x7d")[1]`: the local part of a qualified tag;
`IndexError` when the tag contains no closing brace. -/
def tagLocalName (t : String) : Except VCError String :=
  match (t.splitOn "\x7d").get? 1 with
  | some s => .ok s
  | none => .error (.indexError "list index out of range")

/-- The capacity-bag loop of `_parse_org_vdcs`: for each child element,
strip the namespace from its tag and store its text under the local
name (later duplicates overwrite, as in a Python dict). -/
def capBag (el : XmlElem) : Except VCError (List (String × Option String)) :=
  el.children.foldlM
    (fun d k => do
      let ln ← tagLocalName k.tag
      return dictSet d ln k.text)
    []

/-- Model of `_parse_org_vdcs`: mandatory attributes `type href name id`;
`StorageCapacity` iterated as a capacity bag (`TypeError` when absent:
`for k in None`); `ComputeCapacity` looked up (`AttributeError` on
`None.find` when absent) and its `Cpu`/`Memory` children iterated as
capacity bags (`TypeError` when absent); then link and entity
indices. -/
def parse_org_vdcs (el : XmlElem) : Except VCError OrgVdc := do
  let type_ ← attribGet el "type"
  let href ← attribGet el "href"
  let name ← attribGet el "name"
  let id_ ← attribGet el "id"
  let sCap ←
    match el.find (vcTag "StorageCapacity") with
    | none => Except.error (.typeError noneNotIterableMsg)
    | some sc => capBag sc
  let cCap ←
    match el.find (vcTag "ComputeCapacity") with
    | none => Except.error (.attributeError noneAttrMsg)
    | some cc => do
        let cpu ←
          match cc.find (vcTag "Cpu") with
          | none => Except.error (.typeError noneNotIterableMsg)
          | some c => capBag c
        let memory ←
          match cc.find (vcTag "Memory") with
          | none => Except.error (.typeError noneNotIterableMsg)
          | some m => capBag m
        pure (⟨cpu, memory⟩ : ComputeCap)
  let links ← parse_links el
  let ents ← parse_resource_entities el
  return ⟨type_, href, name, some id_, some sCap, some cCap, some links, some ents⟩

/-- One `IpRange` child of `_parse_ip_ranges`: `StartAddress` and
`EndAddress` looked up with `.find(...).text` (`AttributeError` when a
child is absent); the cosmetic label concatenation
`net_name+" - ("+first+"-"+last+")"` raises `TypeError` when either
text is `None`, so both must be strings for the range to be built. -/
def parseOneIpRange (r : XmlElem) : Except VCError IpRange := do
  let first ← textOfFind r "StartAddress"
  let last ← textOfFind r "EndAddress"
  match first, last with
  | some f, some l => .ok ⟨f, l⟩
  | _, _ => .error (.typeError "can only concatenate str (not \x22NoneType\x22) to str")

/-- Model of `_parse_ip_ranges`: walk the `vcloud:IpRange` children in order.
The `net_name` argument only feeds the unstored cosmetic label. -/
def parse_ip_ranges (netName : String) (el : XmlElem) : Except VCError (List IpRange) :=
  let _ := netName
  (el.findall (vcTag "IpRange")).mapM parseOneIpRange

/-- Model of `_parse_org_nets`: `Configuration` then `IpScope` looked up
(`AttributeError` on a `find`/`.text` against `None` when absent);
gateway/netmask/dns are element text (possibly `None`); the ranges come
from `vcloud:IpRanges` under the scope (`AttributeError` when absent,
since `_parse_ip_ranges` would call `findall` on `None`). -/
def parse_org_nets (el : XmlElem) : Except VCError OrgNet := do
  match el.find (vcTag "Configuration") with
  | none => Except.error (.attributeError noneAttrMsg)
  | some conf =>
      match conf.find (vcTag "IpScope") with
      | none => Except.error (.attributeError noneAttrMsg)
      | some scope => do
          let gateway ← textOfFind scope "Gateway"
          let netmask ← textOfFind scope "Netmask"
          let dns ← textOfFind scope "DnsSuffix"
          let name ← attribGet el "name"
          let ranges ←
            match scope.find (vcTag "IpRanges") with
            | none => Except.error (.attributeError noneAttrMsg)
            | some ipr => parse_ip_ranges name ipr
          return ⟨name, gateway, netmask, dns, ranges⟩

/-! ## HTTP layer and client operations (`api.py`) -/

/-- An HTTP response: status code and the response body already parsed
into an XML element (`lxml.etree.fromstring(res.content)`). -/
structure HttpResponse where
  status : Nat
  content : XmlElem

/-- The transport oracle standing in for `requests`: maps a method and
a URL to the response the server would produce. -/
def Fetch : Type := String → String → HttpResponse

/-- The message carried by the `requests.HTTPError` that
`Response.raise_for_status` raises for a 4xx/5xx status (abstracting
the human-readable reason text, which always embeds the status code). -/
def httpErrMsg (status : Nat) : String :=
  "HTTPError " ++ toString status

/-- Model of `_custom_raise_for_status`: call `res.raise_for_status()` — which
raises `requests.HTTPError` exactly for statuses in `[400, 600)` — and
re-raise any `requests.RequestException` as `APIError(err)`. -/
def custom_raise_for_status (res : HttpResponse) : Except VCError Unit :=
  if 400 ≤ res.status ∧ res.status < 600 then
    .error (.apiError (httpErrMsg res.status))
  else
    .ok ()

/-- Model of `VCloudAPIClient._req(method, url, _raise)`: perform the request in
the current session; when `_raise` is true, error-check the response
with `_custom_raise_for_status`; return the raw response otherwise. -/
def req (fetch : Fetch) (method url : String) (raiseFlag : Bool) :
    Except VCError HttpResponse :=
  let res := fetch method url
  if raiseFlag then
    match custom_raise_for_status res with
    | .error e => .error e
    | .ok _ => .ok res
  else
    .ok res

/-- Model of `"application/vnd.vmware.\x7b0\x7d+xml".format(typ)`: resolution of
a short type name to the full vendor media type. -/
def fullType (typ : String) : String :=
  "application/vnd.vmware." ++ typ ++ "+xml"

/-- The message of the `APIError` that `_lookup` raises for an unknown
type. -/
def lookupMissMsg (typ : String) : String :=
  "Don\x27t know anything about type \x27" ++ typ ++ "\x27"

/-- Model of `VCloudAPIClient._lookup(typ)`: resolve the short name to the full
media type; if that key is in `self._links`, return the href of the
first link stored under it (`IndexError` on an empty list), else raise
`APIError` whose message says it does not know anything about that
type (see `lookupMissMsg`). -/
def lookup_ (links : LinkIndex) (typ : String) : Except VCError String :=
  match alookup links (fullType typ) with
  | some ls =>
      match ls.head? with
      | some l => .ok l.href
      | none => .error (.indexError "list index out of range")
  | none => .error (.apiError (lookupMissMsg typ))

/-- Model of `VCloudAPIClient.org_list`: GET the URL `_lookup("vcloud.orgList")`
resolves to and decode the response as an `OrgList`. -/
def orgListOp (fetch : Fetch) (links : LinkIndex) : Except VCError OrgList := do
  let url ← lookup_ links "vcloud.orgList"
  let res ← req fetch "get" url true
  parse_org_list res.content

/-- Model of `VCloudAPIClient.org(name)`: fetch the org list, look the name up
with `org_by_name` — which yields `None` when absent — and then read
`org_short.href`, which on `None` raises
`AttributeError` about `NoneType` lacking attribute `href`; finally
GET the href and decode the full org. -/
def orgOp (fetch : Fetch) (links : LinkIndex) (name : String) : Except VCError Org := do
  let ol ← orgListOp fetch links
  match ol.org_by_name name with
  | none => .error (.attributeError (noneAttrMsg ++ " \x27href\x27"))
  | some orgShort => do
      let res ← req fetch "get" orgShort.href true
      parse_org res.content

/-- The full media type iterated by `org_nets`. -/
def orgNetworkKey : String := "application/vnd.vmware.vcloud.orgNetwork+xml"

/-- The full media type iterated by `org_vdcs`. -/
def vdcKey : String := "application/vnd.vmware.vcloud.vdc+xml"

/-- One iteration of the `org_nets` loop: GET the link's href and
decode the response as an `OrgNet`. -/
def fetchOneNet (fetch : Fetch) (l : Link) : Except VCError OrgNet := do
  let res ← req fetch "get" l.href true
  parse_org_nets res.content

/-- The `org_nets` loop over the links of the orgNetwork type, in
order; the first failure aborts the loop. -/
def orgNetsLoop (fetch : Fetch) : List Link → Except VCError (List OrgNet)
  | [] => .ok []
  | l :: rest => do
      let net ← fetchOneNet fetch l
      let nets ← orgNetsLoop fetch rest
      return net :: nets

/-- Model of `VCloudAPIClient.org_nets(org)`: read
`org.links["application/vnd.vmware.vcloud.orgNetwork+xml"]` — a
`defaultdict` read that inserts an empty entry when the key is absent
(`TypeError` when `links` is `None`) — then fetch and decode each link.
The pair returned is (result, the org as it stands after the call),
making the in-place mutation of the defaultdict explicit. -/
def orgNetsOp (fetch : Fetch) (org : Org) :
    Except VCError (List OrgNet) × Org :=
  match org.links with
  | none => (.error (.typeError "\x27NoneType\x27 object is not subscriptable"), org)
  | some d =>
      let (ls, d2) := ddGetItem d orgNetworkKey
      (orgNetsLoop fetch ls,
       ⟨org.type, org.href, org.name, org.id, org.full_name, org.description, some d2⟩)

/-- One iteration of the `org_vdcs` loop: GET the link's href and
decode the response as an `OrgVdc`. -/
def fetchOneVdc (fetch : Fetch) (l : Link) : Except VCError OrgVdc := do
  let res ← req fetch "get" l.href true
  parse_org_vdcs res.content

/-- The `org_vdcs` loop over the links of the vdc type, in order. -/
def orgVdcsLoop (fetch : Fetch) : List Link → Except VCError (List OrgVdc)
  | [] => .ok []
  | l :: rest => do
      let vdc ← fetchOneVdc fetch l
      let vdcs ← orgVdcsLoop fetch rest
      return vdc :: vdcs

/-- Model of `VCloudAPIClient.org_vdcs(org)`: the same shape as `org_nets` for
the vdc media type. -/
def orgVdcsOp (fetch : Fetch) (org : Org) :
    Except VCError (List OrgVdc) × Org :=
  match org.links with
  | none => (.error (.typeError "\x27NoneType\x27 object is not subscriptable"), org)
  | some d =>
      let (ls, d2) := ddGetItem d vdcKey
      (orgVdcsLoop fetch ls,
       ⟨org.type, org.href, org.name, org.id, org.full_name, org.description, some d2⟩)

/-! ## Session state: auth token and headers -/

/-- Model of `VCLOUD_AUTH_HEADER`. -/
def VCLOUD_AUTH_HEADER : String := "x-vcloud-authorization"

/-- Model of `VCLOUD_MIME` for version 1.5. -/
def VCLOUD_MIME : String := "application/*+xml;version=1.5"

/-- Model of `envkey(key)`: `"VCLOUD_\x7b0\x7d".format(key.upper())`.  The
`upper()` call is modelled character-by-character (the core `String.map`
is defined by well-founded recursion and does not reduce). -/
def envkey (key : String) : String :=
  "VCLOUD_" ++ String.mk (key.data.map Char.toUpper)

/-- Model of `envget(key)`: `os.environ.get(envkey(key), None)`, over an
environment oracle. -/
def envget (env : String → Option String) (key : String) : Option String :=
  env (envkey key)

/-- The token-relevant slice of client state: the `_token` attribute
and the header dict of the session.  Header values are `Option String`
because the token written may be `None`. -/
structure SessionState where
  tokenAttr : Option String
  headers : List (String × Option String)
  deriving DecidableEq

/-- The `token` property setter: store the value in `_token` and
unconditionally write it into the session header
`x-vcloud-authorization`, whatever it is. -/
def setToken (s : SessionState) (tok : Option String) : SessionState :=
  ⟨tok, dictSet s.headers VCLOUD_AUTH_HEADER tok⟩

/-- The token-relevant part of `VCloudAPIClient.__init__`: the session
headers are set to `\x7b"accept": VCLOUD_MIME\x7d` and then
`self.token = envget("auth_token")` runs the setter with whatever the
environment holds (possibly nothing). -/
def initSession (env : String → Option String) : SessionState :=
  setToken ⟨none, [("accept", some VCLOUD_MIME)]⟩ (envget env "auth_token")

/-! ## Lemma layer: association lists, defaultdict grouping, loops -/

theorem alookup_append {β : Type} (d e : List (String × β)) (k : String) :
    alookup (d ++ e) k = (alookup d k <|> alookup e k) := by
  induction d with
  | nil => simp [alookup]
  | cons hd tl ih =>
      obtain ⟨k0, v⟩ := hd
      by_cases h : k0 = k <;> simp [alookup, h, ih]

theorem alookup_ddAppend {β : Type} (d : List (String × List β)) (k0 k : String) (x : β) :
    alookup (ddAppend d k0 x) k =
      if k0 = k then some (ddFindD d k ++ [x]) else alookup d k := by
  induction d with
  | nil =>
      by_cases h : k0 = k <;> simp [ddAppend, alookup, ddFindD, h]
  | cons hd tl ih =>
      obtain ⟨k1, vs⟩ := hd
      by_cases h1 : k1 = k0
      · subst h1
        by_cases h2 : k1 = k <;> simp [ddAppend, alookup, ddFindD, h2]
      · by_cases h2 : k1 = k
        · subst h2
          have hk : ¬ k0 = k1 := fun h => h1 h.symm
          simp [ddAppend, alookup, ddFindD, h1, hk]
        · simp [ddAppend, alookup, ddFindD, h1, h2, ih]

theorem ddFindD_ddAppend {β : Type} (d : List (String × List β)) (k0 k : String) (x : β) :
    ddFindD (ddAppend d k0 x) k =
      if k0 = k then ddFindD d k ++ [x] else ddFindD d k := by
  unfold ddFindD
  rw [alookup_ddAppend]
  by_cases h : k0 = k <;> simp [h, ddFindD]

theorem alookup_foldl_ddAppend {β : Type} (key : β → String)
    (items : List β) (d : List (String × List β)) (k : String) :
    alookup (items.foldl (fun acc it => ddAppend acc (key it) it) d) k =
      if (items.filter (fun it => key it = k)).isEmpty then alookup d k
      else some (ddFindD d k ++ items.filter (fun it => key it = k)) := by
  induction items generalizing d with
  | nil => simp
  | cons it rest ih =>
      rw [List.foldl_cons, ih]
      by_cases h : key it = k
      · cases hr : rest.filter (fun it => key it = k) with
        | nil =>
            simp [List.filter_cons, h, hr, alookup_ddAppend, ddFindD_ddAppend]
        | cons a as =>
            simp [List.filter_cons, h, hr, alookup_ddAppend, ddFindD_ddAppend,
                  List.append_assoc]
      · cases hr : rest.filter (fun it => key it = k) with
        | nil => simp [List.filter_cons, h, hr, alookup_ddAppend]
        | cons a as =>
            simp [List.filter_cons, h, hr, alookup_ddAppend, ddFindD_ddAppend]

theorem alookup_groupByKey {β : Type} (key : β → String) (items : List β) (k : String) :
    alookup (groupByKey key items) k =
      if (items.filter (fun it => key it = k)).isEmpty then none
      else some (items.filter (fun it => key it = k)) := by
  unfold groupByKey
  rw [alookup_foldl_ddAppend]
  cases hr : items.filter (fun it => key it = k) with
  | nil => simp [hr, alookup]
  | cons a as => simp [hr, alookup, ddFindD]

theorem ddFindD_groupByKey {β : Type} (key : β → String) (items : List β) (k : String) :
    ddFindD (groupByKey key items) k = items.filter (fun it => key it = k) := by
  unfold ddFindD
  rw [alookup_groupByKey]
  cases hr : items.filter (fun it => key it = k) with
  | nil => simp [hr]
  | cons a as => simp [hr]

theorem alookup_dictSet_self {β : Type} (d : List (String × β)) (k : String) (v : β) :
    alookup (dictSet d k v) k = some v := by
  induction d with
  | nil => simp [dictSet, alookup]
  | cons hd tl ih =>
      obtain ⟨k0, v0⟩ := hd
      by_cases h : k0 = k <;> simp [dictSet, alookup, h, ih]

theorem alookup_dictSet_ne {β : Type} (d : List (String × β)) (k k' : String) (v : β)
    (h : k' ≠ k) :
    alookup (dictSet d k v) k' = alookup d k' := by
  induction d with
  | nil => simp [dictSet, alookup, Ne.symm h]
  | cons hd tl ih =>
      obtain ⟨k0, v0⟩ := hd
      by_cases h0 : k0 = k
      · subst h0
        simp [dictSet, alookup, Ne.symm h]
      · by_cases h1 : k0 = k'
        · subst h1
          simp [dictSet, alookup, h0]
        · simp [dictSet, alookup, h0, h1, ih]

theorem ddGetItem_snd {β : Type} (d : List (String × List β)) (k : String) :
    (ddGetItem d k).2 = if (alookup d k).isSome then d else d ++ [(k, [])] := by
  unfold ddGetItem
  cases h : alookup d k <;> simp [h]

theorem alookup_ddGetItem_self {β : Type} (d : List (String × List β)) (k : String) :
    alookup (ddGetItem d k).2 k = some (ddFindD d k) := by
  unfold ddGetItem ddFindD
  cases h : alookup d k with
  | none => simp [alookup_append, h, alookup]
  | some vs => simp [h]

theorem alookup_ddGetItem_ne {β : Type} (d : List (String × List β)) (k k' : String)
    (h : k' ≠ k) :
    alookup (ddGetItem d k).2 k' = alookup d k' := by
  unfold ddGetItem
  cases hd : alookup d k with
  | none =>
      show alookup (d ++ [(k, [])]) k' = alookup d k'
      rw [alookup_append]
      simp [alookup, Ne.symm h]
  | some vs => simp [hd]

theorem orgNetsLoop_map (fetch : Fetch) (ls : List Link) (f : Link → OrgNet)
    (h : ∀ l ∈ ls, fetchOneNet fetch l = .ok (f l)) :
    orgNetsLoop fetch ls = .ok (ls.map f) := by
  induction ls with
  | nil => rfl
  | cons l rest ih =>
      have hl := h l (by simp)
      have hrest := ih (fun x hx => h x (by simp [hx]))
      simp only [orgNetsLoop, hl, hrest, List.map_cons]
      rfl

theorem orgVdcsLoop_map (fetch : Fetch) (ls : List Link) (f : Link → OrgVdc)
    (h : ∀ l ∈ ls, fetchOneVdc fetch l = .ok (f l)) :
    orgVdcsLoop fetch ls = .ok (ls.map f) := by
  induction ls with
  | nil => rfl
  | cons l rest ih =>
      have hl := h l (by simp)
      have hrest := ih (fun x hx => h x (by simp [hx]))
      simp only [orgVdcsLoop, hl, hrest, List.map_cons]
      rfl

theorem parse_links_eq_group (el : XmlElem) (idx : LinkIndex) (links : List Link)
    (hidx : parse_links el = .ok idx)
    (hl : (el.findall (vcTag "Link")).mapM parse_link = .ok links) :
    idx = groupByKey (fun l => l.type) links := by
  unfold parse_links at hidx
  rw [hl] at hidx
  exact (Except.ok.inj hidx).symm

theorem ddGetItem_fst {β : Type} (d : List (String × List β)) (k : String) :
    (ddGetItem d k).1 = ddFindD d k := by
  unfold ddGetItem ddFindD
  cases h : alookup d k <;> simp [h]

theorem attribGet_none (el : XmlElem) (k : String) (h : alookup el.attribs k = none) :
    attribGet el k = .error (.keyError k) := by
  unfold attribGet
  rw [h]

theorem attribGet_some (el : XmlElem) (k v : String) (h : alookup el.attribs k = some v) :
    attribGet el k = .ok v := by
  unfold attribGet
  rw [h]

theorem textOfFind_none (el : XmlElem) (loc : String) (h : el.find (vcTag loc) = none) :
    textOfFind el loc = .error (.attributeError noneAttrMsg) := by
  unfold textOfFind
  rw [h]

theorem textOfFind_some (el : XmlElem) (loc : String) (c : XmlElem)
    (h : el.find (vcTag loc) = some c) :
    textOfFind el loc = .ok c.text := by
  unfold textOfFind
  rw [h]

theorem parse_resource_entities_eq_group (el container : XmlElem) (eidx : EntityIndex)
    (ents : List ResourceEntity)
    (hfind : el.find (vcTag "ResourceEntities") = some container)
    (hmap : (container.findall (vcTag "ResourceEntity")).mapM parse_resource_entity
       = .ok ents)
    (hok : parse_resource_entities el = .ok eidx) :
    eidx = groupByKey (fun e => e.type) ents := by
  unfold parse_resource_entities at hok
  rw [hfind] at hok
  have hok2 :
      ((container.findall (vcTag "ResourceEntity")).mapM parse_resource_entity).bind
          (fun es => Except.ok (groupByKey (fun e => e.type) es)) = Except.ok eidx := hok
  rw [hmap] at hok2
  exact (Except.ok.inj hok2).symm

theorem orgByNameLoop_no_match (os : List Org) (n : String)
    (h : ∀ x ∈ os, x.name ≠ n) :
    orgByNameLoop os n = none := by
  induction os with
  | nil => rfl
  | cons o os ih =>
      simp [orgByNameLoop, h o (by simp), ih (fun x hx => h x (by simp [hx]))]

theorem orgByNameLoop_first (os1 os2 : List Org) (o : Org) (n : String)
    (ho : o.name = n) (h1 : ∀ x ∈ os1, x.name ≠ n) :
    orgByNameLoop (os1 ++ o :: os2) n = some o := by
  induction os1 with
  | nil => simp [orgByNameLoop, ho]
  | cons x xs ih =>
      simp [orgByNameLoop, h1 x (by simp), ih (fun y hy => h1 y (by simp [hy]))]

theorem extNetByNameLoop_no_match (ens : List ExtNet) (n : String)
    (h : ∀ x ∈ ens, x.name ≠ n) :
    extNetByNameLoop ens n = none := by
  induction ens with
  | nil => rfl
  | cons en ens ih =>
      simp [extNetByNameLoop, h en (by simp), ih (fun x hx => h x (by simp [hx]))]

theorem extNetByNameLoop_first (ns1 ns2 : List ExtNet) (en : ExtNet) (n : String)
    (ho : en.name = n) (h1 : ∀ x ∈ ns1, x.name ≠ n) :
    extNetByNameLoop (ns1 ++ en :: ns2) n = some en := by
  induction ns1 with
  | nil => simp [extNetByNameLoop, ho]
  | cons x xs ih =>
      simp [extNetByNameLoop, h1 x (by simp), ih (fun y hy => h1 y (by simp [hy]))]

theorem orgNetsOp_eq (fetch : Fetch) (org : Org) (d : LinkIndex)
    (hd : org.links = some d) :
    orgNetsOp fetch org =
      (orgNetsLoop fetch (ddGetItem d orgNetworkKey).1,
       ⟨org.type, org.href, org.name, org.id, org.full_name, org.description,
        some (ddGetItem d orgNetworkKey).2⟩) := by
  unfold orgNetsOp
  rw [hd]

theorem orgVdcsOp_eq (fetch : Fetch) (org : Org) (d : LinkIndex)
    (hd : org.links = some d) :
    orgVdcsOp fetch org =
      (orgVdcsLoop fetch (ddGetItem d vdcKey).1,
       ⟨org.type, org.href, org.name, org.id, org.full_name, org.description,
        some (ddGetItem d vdcKey).2⟩) := by
  unfold orgVdcsOp
  rw [hd]

/-! ## Sample data for witnesses and counterexamples -/

/-- A `Link` of the orgList media type pointing at `list-a`. -/
def linkListA : Link :=
  ⟨fullType "vcloud.orgList", "http://api.example/list-a", "down", none⟩

/-- A second `Link` of the same type pointing at `list-b`. -/
def linkListB : Link :=
  ⟨fullType "vcloud.orgList", "http://api.example/list-b", "down", none⟩

/-- A session document advertising two links of the same type, in
document order `list-a`, `list-b`. -/
def sessionDocTwoLinks : XmlElem :=
  .mk (vcTag "Session") [] none
    [ .mk (vcTag "Link")
        [("type", fullType "vcloud.orgList"),
         ("href", "http://api.example/list-a"), ("rel", "down")] none [],
      .mk (vcTag "Link")
        [("type", fullType "vcloud.orgList"),
         ("href", "http://api.example/list-b"), ("rel", "down")] none [] ]

/-! ## Claim C4 -/

/-- C4: for every short type name `typ`, `_lookup` resolves it to the
full vendor media type `application/vnd.vmware.<typ>+xml` and, when
that key is present in the LinkIndex built by `_parse_links`, returns
the href of the first link of that type in document order (with two
links of the same type, the href of the first one, not the last). -/
theorem c4_lookup_first_in_document_order (el : XmlElem) (idx : LinkIndex)
    (typ : String) (links : List Link) (l : Link) (ls : List Link)
    (hidx : parse_links el = .ok idx)
    (hl : (el.findall (vcTag "Link")).mapM parse_link = .ok links)
    (hfirst : links.filter (fun x => x.type = fullType typ) = l :: ls) :
    lookup_ idx typ = .ok l.href := by
  have hg := parse_links_eq_group el idx links hidx hl
  subst hg
  have halo : alookup (groupByKey (fun l => l.type) links) (fullType typ)
      = some (l :: ls) := by
    simp only [alookup_groupByKey]
    rw [hfirst]
    rfl
  unfold lookup_
  rw [halo]
  rfl

/-- C4 witness: on the two-link session document, `_lookup` returns
the first link's href, `list-a`, not `list-b`. -/
theorem c4_witness :
    lookup_ [(fullType "vcloud.orgList", [linkListA, linkListB])] "vcloud.orgList"
      = .ok "http://api.example/list-a" :=
  c4_lookup_first_in_document_order sessionDocTwoLinks
    [(fullType "vcloud.orgList", [linkListA, linkListB])]
    "vcloud.orgList" [linkListA, linkListB] linkListA [linkListB]
    (by rfl) (by rfl) (by rfl)

/-! ## Claim C5 -/

/-- C5 counterexample: `_lookup` on a type absent from the LinkIndex
raises `APIError` — the very same error kind produced for non-2xx HTTP
responses — not a distinct LookupError kind. -/
theorem c5_counterexample :
    lookup_ ([] : LinkIndex) "foo" = .error (.apiError (lookupMissMsg "foo")) ∧
    custom_raise_for_status ⟨404, .mk "r" [] none []⟩
      = .error (.apiError (httpErrMsg 404)) := by
  exact ⟨rfl, rfl⟩

/-- C5 amended: for every short type name whose resolved full media
type has no entry in the current LinkIndex, `_lookup` fails with
`APIError` (the same exception class used for HTTP failures, not a
distinct LookupError kind) whose message says it does not know anything
about that type. -/
theorem c5_amended_lookup_miss_apierror (links : LinkIndex) (typ : String)
    (h : alookup links (fullType typ) = none) :
    lookup_ links typ = .error (.apiError (lookupMissMsg typ)) := by
  unfold lookup_
  rw [h]

/-- C5 witness: concrete unknown type `admin.vcloud` on an index that
only knows the orgList type. -/
theorem c5_witness :
    lookup_ [(fullType "vcloud.orgList", [linkListA])] "admin.vcloud"
      = .error (.apiError (lookupMissMsg "admin.vcloud")) :=
  c5_amended_lookup_miss_apierror
    [(fullType "vcloud.orgList", [linkListA])] "admin.vcloud" (by rfl)

/-! ## Claim C7 -/

/-- C7: `org_by_name` (resp. `ext_net_by_name`) returns absent on the
empty list; on any list it returns, unchanged, the first element whose
`name` equals the argument exactly, and absent when no element
matches (duplicates are not an error — first match wins). -/
theorem c7_by_name_exact_first_match (name : String) (os1 os2 os : List Org)
    (o : Org) (ns1 ns2 ns : List ExtNet) (en : ExtNet) :
    (OrgList.org_by_name ⟨[]⟩ name = none) ∧
    ((∀ x ∈ os, x.name ≠ name) → OrgList.org_by_name ⟨os⟩ name = none) ∧
    (o.name = name → (∀ x ∈ os1, x.name ≠ name) →
        OrgList.org_by_name ⟨os1 ++ o :: os2⟩ name = some o) ∧
    (ExtNetList.ext_net_by_name ⟨[]⟩ name = none) ∧
    ((∀ x ∈ ns, x.name ≠ name) → ExtNetList.ext_net_by_name ⟨ns⟩ name = none) ∧
    (en.name = name → (∀ x ∈ ns1, x.name ≠ name) →
        ExtNetList.ext_net_by_name ⟨ns1 ++ en :: ns2⟩ name = some en) := by
  refine ⟨rfl, ?_, ?_, rfl, ?_, ?_⟩
  · exact fun h => orgByNameLoop_no_match os name h
  · exact fun ho h1 => orgByNameLoop_first os1 os2 o name ho h1
  · exact fun h => extNetByNameLoop_no_match ns name h
  · exact fun ho h1 => extNetByNameLoop_first ns1 ns2 en name ho h1

/-- An org named `Acme`. -/
def orgAcme : Org := ⟨"t", "http://api.example/org/1", "Acme", none, none, none, none⟩

/-- An org named `Bob` (first of two with that name). -/
def orgBobOne : Org := ⟨"t", "http://api.example/org/2", "Bob", none, none, none, none⟩

/-- A second org named `Bob`, structurally different from the first. -/
def orgBobTwo : Org := ⟨"t", "http://api.example/org/3", "Bob", none, none, none, none⟩

/-- An external network named `ext-a`. -/
def extNetA : ExtNet := ⟨"t", "http://api.example/net/1", "ext-a", none, none, none, none⟩

/-- C7 witness: with duplicate names the first match wins and is
returned unchanged; lookup is case-sensitive (`acme` does not match
`Acme`); ext-net lookup mirrors the org lookup. -/
theorem c7_witness :
    OrgList.org_by_name ⟨[orgAcme, orgBobOne, orgBobTwo]⟩ "Bob" = some orgBobOne ∧
    OrgList.org_by_name ⟨[orgAcme, orgBobOne, orgBobTwo]⟩ "acme" = none ∧
    ExtNetList.ext_net_by_name ⟨[extNetA]⟩ "ext-a" = some extNetA := by
  refine ⟨?_, ?_, ?_⟩
  · exact (c7_by_name_exact_first_match "Bob" [orgAcme] [orgBobTwo] [] orgBobOne
      [] [] [] extNetA).2.2.1 (by rfl) (by decide)
  · exact (c7_by_name_exact_first_match "acme" [] [] [orgAcme, orgBobOne, orgBobTwo]
      orgAcme [] [] [] extNetA).2.1 (by decide)
  · exact (c7_by_name_exact_first_match "ext-a" [] [] [] orgAcme [] [] [] extNetA).2.2.2.2.2
      (by rfl) (by simp)

/-! ## Claim C8 -/

/-- C8: building a LinkIndex or EntityIndex groups the repeated
`Link`/`ResourceEntity` children by their own `type` attribute such
that, for every type key, the sequence stored under that key lists the
same-typed siblings in exactly their document order (grouping is
stable, never sorted or reordered). -/
theorem c8_grouping_stable (el container : XmlElem) (idx : LinkIndex)
    (eidx : EntityIndex) (links : List Link) (ents : List ResourceEntity)
    (key : String) :
    (parse_links el = .ok idx →
      (el.findall (vcTag "Link")).mapM parse_link = .ok links →
      ddFindD idx key = links.filter (fun l => l.type = key)) ∧
    (parse_resource_entities el = .ok eidx →
      el.find (vcTag "ResourceEntities") = some container →
      (container.findall (vcTag "ResourceEntity")).mapM parse_resource_entity
        = .ok ents →
      ddFindD eidx key = ents.filter (fun e => e.type = key)) := by
  constructor
  · intro hidx hl
    have hg := parse_links_eq_group el idx links hidx hl
    subst hg
    simpa using ddFindD_groupByKey (fun l => l.type) links key
  · intro hok hfind hmap
    have hg := parse_resource_entities_eq_group el container eidx ents hfind hmap hok
    subst hg
    simpa using ddFindD_groupByKey (fun e => e.type) ents key

/-- A VDC-like document with three links (types `tA`, `tB`, `tA`
interleaved) and three resource entities (types `tE`, `tF`, `tE`
interleaved). -/
def vdcDocInterleaved : XmlElem :=
  .mk (vcTag "Vdc") [] none
    [ .mk (vcTag "Link") [("type", "tA"), ("href", "hA1"), ("rel", "down")] none [],
      .mk (vcTag "Link") [("type", "tB"), ("href", "hB1"), ("rel", "down")] none [],
      .mk (vcTag "Link") [("type", "tA"), ("href", "hA2"), ("rel", "down")] none [],
      .mk (vcTag "ResourceEntities") [] none
        [ .mk (vcTag "ResourceEntity") [("type", "tE"), ("href", "e1")] none [],
          .mk (vcTag "ResourceEntity") [("type", "tF"), ("href", "e2")] none [],
          .mk (vcTag "ResourceEntity") [("type", "tE"), ("href", "e3")] none [] ] ]

/-- The `ResourceEntities` container inside `vdcDocInterleaved`. -/
def entsContainer : XmlElem :=
  .mk (vcTag "ResourceEntities") [] none
    [ .mk (vcTag "ResourceEntity") [("type", "tE"), ("href", "e1")] none [],
      .mk (vcTag "ResourceEntity") [("type", "tF"), ("href", "e2")] none [],
      .mk (vcTag "ResourceEntity") [("type", "tE"), ("href", "e3")] none [] ]

/-- C8 witness: on the interleaved document, the `tA` links come out in
document order `hA1, hA2` and the `tE` entities in document order
`e1, e3`. -/
theorem c8_witness :
    ddFindD [("tA", [⟨"tA", "hA1", "down", none⟩, ⟨"tA", "hA2", "down", none⟩]),
             ("tB", [⟨"tB", "hB1", "down", none⟩])] "tA"
      = [(⟨"tA", "hA1", "down", none⟩ : Link), ⟨"tA", "hA2", "down", none⟩] ∧
    ddFindD [("tE", [⟨"tE", "e1", none⟩, ⟨"tE", "e3", none⟩]),
             ("tF", [⟨"tF", "e2", none⟩])] "tE"
      = [(⟨"tE", "e1", none⟩ : ResourceEntity), ⟨"tE", "e3", none⟩] := by
  constructor
  · exact (c8_grouping_stable vdcDocInterleaved entsContainer
      [("tA", [⟨"tA", "hA1", "down", none⟩, ⟨"tA", "hA2", "down", none⟩]),
       ("tB", [⟨"tB", "hB1", "down", none⟩])]
      [("tE", [⟨"tE", "e1", none⟩, ⟨"tE", "e3", none⟩]), ("tF", [⟨"tF", "e2", none⟩])]
      [⟨"tA", "hA1", "down", none⟩, ⟨"tB", "hB1", "down", none⟩, ⟨"tA", "hA2", "down", none⟩]
      [⟨"tE", "e1", none⟩, ⟨"tF", "e2", none⟩, ⟨"tE", "e3", none⟩]
      "tA").1 (by rfl) (by rfl)
  · exact (c8_grouping_stable vdcDocInterleaved entsContainer
      [("tA", [⟨"tA", "hA1", "down", none⟩, ⟨"tA", "hA2", "down", none⟩]),
       ("tB", [⟨"tB", "hB1", "down", none⟩])]
      [("tE", [⟨"tE", "e1", none⟩, ⟨"tE", "e3", none⟩]), ("tF", [⟨"tF", "e2", none⟩])]
      [⟨"tA", "hA1", "down", none⟩, ⟨"tB", "hB1", "down", none⟩, ⟨"tA", "hA2", "down", none⟩]
      [⟨"tE", "e1", none⟩, ⟨"tF", "e2", none⟩, ⟨"tE", "e3", none⟩]
      "tE").2 (by rfl) (by rfl) (by rfl)

/-! ## Claim C9 -/

/-- C9: for every org whose LinkIndex has no entry for the relevant
media type, `org_nets(org)` and `org_vdcs(org)` return an empty
sequence rather than failing (under ANY transport oracle — no request
is made); in general they fetch and decode one record per link of that
type and return the records as an ordered sequence in link order. -/
theorem c9_org_nets_vdcs_per_link (fetch : Fetch) (org : Org) (d : LinkIndex)
    (hd : org.links = some d) :
    (alookup d orgNetworkKey = none → (orgNetsOp fetch org).1 = .ok []) ∧
    (alookup d vdcKey = none → (orgVdcsOp fetch org).1 = .ok []) ∧
    (∀ ls f, alookup d orgNetworkKey = some ls →
        (∀ l ∈ ls, fetchOneNet fetch l = .ok (f l)) →
        (orgNetsOp fetch org).1 = .ok (ls.map f)) ∧
    (∀ ls g, alookup d vdcKey = some ls →
        (∀ l ∈ ls, fetchOneVdc fetch l = .ok (g l)) →
        (orgVdcsOp fetch org).1 = .ok (ls.map g)) := by
  refine ⟨?_, ?_, ?_, ?_⟩
  · intro h
    rw [orgNetsOp_eq fetch org d hd]
    show orgNetsLoop fetch (ddGetItem d orgNetworkKey).1 = .ok []
    rw [ddGetItem_fst]
    unfold ddFindD
    rw [h]
    rfl
  · intro h
    rw [orgVdcsOp_eq fetch org d hd]
    show orgVdcsLoop fetch (ddGetItem d vdcKey).1 = .ok []
    rw [ddGetItem_fst]
    unfold ddFindD
    rw [h]
    rfl
  · intro ls f h hall
    rw [orgNetsOp_eq fetch org d hd]
    show orgNetsLoop fetch (ddGetItem d orgNetworkKey).1 = .ok (ls.map f)
    rw [ddGetItem_fst]
    unfold ddFindD
    rw [h]
    exact orgNetsLoop_map fetch ls f hall
  · intro ls g h hall
    rw [orgVdcsOp_eq fetch org d hd]
    show orgVdcsLoop fetch (ddGetItem d vdcKey).1 = .ok (ls.map g)
    rw [ddGetItem_fst]
    unfold ddFindD
    rw [h]
    exact orgVdcsLoop_map fetch ls g hall

/-- An org-network document for the transport oracle to serve. -/
def orgNetDoc : XmlElem :=
  .mk (vcTag "OrgNetwork") [("name", "net-a")] none
    [ .mk (vcTag "Configuration") [] none
        [ .mk (vcTag "IpScope") [] none
            [ .mk (vcTag "Gateway") [] (some "10.0.0.1") [],
              .mk (vcTag "Netmask") [] (some "255.255.255.0") [],
              .mk (vcTag "DnsSuffix") [] (some "example.net") [],
              .mk (vcTag "IpRanges") [] none
                [ .mk (vcTag "IpRange") [] none
                    [ .mk (vcTag "StartAddress") [] (some "10.0.0.2") [],
                      .mk (vcTag "EndAddress") [] (some "10.0.0.9") [] ] ] ] ] ]

/-- The record `orgNetDoc` decodes to. -/
def sampleNet : OrgNet :=
  ⟨"net-a", some "10.0.0.1", some "255.255.255.0", some "example.net",
   [⟨"10.0.0.2", "10.0.0.9"⟩]⟩

/-- A link of the orgNetwork media type. -/
def netLink : Link := ⟨orgNetworkKey, "http://api.example/net/9", "down", none⟩

/-- An oracle that serves `orgNetDoc` for every request. -/
def fetchNetDoc : Fetch := fun _ _ => ⟨200, orgNetDoc⟩

/-- An org whose LinkIndex has one orgNetwork link. -/
def orgWithNetLink : Org :=
  ⟨"t", "h", "O", none, none, none, some [(orgNetworkKey, [netLink])]⟩

/-- An org whose LinkIndex is empty. -/
def orgNoLinks : Org := ⟨"t", "h", "O", none, none, none, some []⟩

/-- C9 witness: empty sequences for an org with no matching links, and
one decoded record per link otherwise. -/
theorem c9_witness :
    (orgNetsOp fetchNetDoc orgNoLinks).1 = .ok [] ∧
    (orgVdcsOp fetchNetDoc orgNoLinks).1 = .ok [] ∧
    (orgNetsOp fetchNetDoc orgWithNetLink).1 = .ok [sampleNet] := by
  refine ⟨?_, ?_, ?_⟩
  · exact (c9_org_nets_vdcs_per_link fetchNetDoc orgNoLinks [] rfl).1 rfl
  · exact (c9_org_nets_vdcs_per_link fetchNetDoc orgNoLinks [] rfl).2.1 rfl
  · exact (c9_org_nets_vdcs_per_link fetchNetDoc orgWithNetLink
      [(orgNetworkKey, [netLink])] rfl).2.2.1 [netLink] (fun _ => sampleNet) rfl
      (by
        intro l hl
        simp only [List.mem_singleton] at hl
        subst hl
        rfl)

/-! ## Claim C10 -/

/-- C10: every value assigned to the token attribute of the client —
including the possibly-absent value read from the environment at
construction — is unconditionally written into the session header
`x-vcloud-authorization`, exactly as assigned, even when no
token exists yet. -/
theorem c10_auth_header_always_written (s : SessionState) (tok : Option String)
    (env : String → Option String) :
    (setToken s tok).tokenAttr = tok ∧
    alookup (setToken s tok).headers VCLOUD_AUTH_HEADER = some tok ∧
    alookup (initSession env).headers VCLOUD_AUTH_HEADER
      = some (env "VCLOUD_AUTH_TOKEN") := by
  refine ⟨rfl, alookup_dictSet_self _ _ _, ?_⟩
  have hk : envkey "auth_token" = "VCLOUD_AUTH_TOKEN" := by decide
  show alookup (dictSet [("accept", some VCLOUD_MIME)] VCLOUD_AUTH_HEADER
      (env (envkey "auth_token"))) VCLOUD_AUTH_HEADER = some (env "VCLOUD_AUTH_TOKEN")
  rw [hk]
  exact alookup_dictSet_self _ _ _

/-! ## Claim C1 -/

/-- A link advertising the orgList endpoint. -/
def orgListLink : Link :=
  ⟨fullType "vcloud.orgList", "http://api.example/org-list", "down", none⟩

/-- A root LinkIndex knowing only the orgList endpoint. -/
def rootLinks : LinkIndex := [(fullType "vcloud.orgList", [orgListLink])]

/-- An org-list document containing a single org named `Acme`. -/
def orgListDoc : XmlElem :=
  .mk (vcTag "OrgList") [] none
    [ .mk (vcTag "Org")
        [("type", fullType "vcloud.org"), ("href", "http://api.example/org/1"),
         ("name", "Acme")] none [] ]

/-- An oracle serving `orgListDoc` for every request. -/
def fetchOrgList : Fetch := fun _ _ => ⟨200, orgListDoc⟩

/-- C1: evaluating `org(name)` at a name absent from the fetched org
list: `org_by_name` returns the absent value, and the code then reads
`org_short.href` on it, failing with `AttributeError` — an unrelated
failure — instead of reporting a NotFoundError at the boundary. -/
theorem c1_org_absent_is_attribute_error :
    orgOp fetchOrgList rootLinks "Bilbo"
      = .error (.attributeError (noneAttrMsg ++ " \x27href\x27")) ∧
    orgOp fetchOrgList rootLinks "Bilbo" ≠ .error (.notFound "Bilbo") := by
  exact ⟨rfl, by decide⟩

/-! ## Claim C2 -/

/-- An org element carrying `type`, `href` and `name` but no `id`
attribute; its optional-looking children are present. -/
def orgElNoId : XmlElem :=
  .mk (vcTag "Org")
    [("type", fullType "vcloud.org"), ("href", "http://api.example/org/1"),
     ("name", "Acme")] none
    [ .mk (vcTag "FullName") [] (some "Acme Corp") [],
      .mk (vcTag "Description") [] (some "desc") [] ]

/-- C2 counterexample: the claim says a missing `id` attribute is
mapped to an absent value, but `_parse_org` fails with
`KeyError("id")` and produces no record. -/
theorem c2_counterexample :
    parse_org orgElNoId = .error (.keyError "id") ∧
    parse_org orgElNoId
      ≠ .ok ⟨fullType "vcloud.org", "http://api.example/org/1", "Acme",
             none, some "Acme Corp", some "desc", some []⟩ := by
  exact ⟨rfl, by decide⟩

/-- C2 amended: the identity attributes `type`, `href`, `name` are
mandatory in `_parse_org` (KeyError when absent), but so are the `id`
attribute and the `FullName`/`Description` child elements (KeyError /
AttributeError when absent) — likewise `id` in `_parse_ext_net`; only
the attribute-splat decoders such as `_parse_org_short` map missing
non-identity fields to absent values without failing. -/
theorem c2_amended_full_decoders_strict (el : XmlElem) (fn : XmlElem)
    (t hr n i : String) :
    (alookup el.attribs "type" = none →
      parse_org el = .error (.keyError "type")) ∧
    (alookup el.attribs "type" = some t → alookup el.attribs "href" = none →
      parse_org el = .error (.keyError "href")) ∧
    (alookup el.attribs "type" = some t → alookup el.attribs "href" = some hr →
      alookup el.attribs "name" = none →
      parse_org el = .error (.keyError "name")) ∧
    (alookup el.attribs "type" = some t → alookup el.attribs "href" = some hr →
      alookup el.attribs "name" = some n → alookup el.attribs "id" = none →
      parse_org el = .error (.keyError "id")) ∧
    (alookup el.attribs "type" = some t → alookup el.attribs "href" = some hr →
      alookup el.attribs "name" = some n → alookup el.attribs "id" = none →
      parse_ext_net el = .error (.keyError "id")) ∧
    (alookup el.attribs "type" = some t → alookup el.attribs "href" = some hr →
      alookup el.attribs "name" = some n → alookup el.attribs "id" = some i →
      el.find (vcTag "FullName") = none →
      parse_org el = .error (.attributeError noneAttrMsg)) ∧
    (alookup el.attribs "type" = some t → alookup el.attribs "href" = some hr →
      alookup el.attribs "name" = some n → alookup el.attribs "id" = some i →
      el.find (vcTag "FullName") = some fn →
      el.find (vcTag "Description") = none →
      parse_org el = .error (.attributeError noneAttrMsg)) ∧
    (alookup el.attribs "type" = some t → alookup el.attribs "href" = some hr →
      alookup el.attribs "name" = some n → alookup el.attribs "id" = some i →
      el.find (vcTag "Description") = none →
      parse_ext_net el = .error (.attributeError noneAttrMsg)) ∧
    (el.attribs = [("type", t), ("href", hr), ("name", n)] →
      parse_org_short el = .ok ⟨t, hr, n, none, none, none, none⟩) := by
  refine ⟨?_, ?_, ?_, ?_, ?_, ?_, ?_, ?_, ?_⟩
  · intro h1
    unfold parse_org
    rw [attribGet_none el "type" h1]
    rfl
  · intro h1 h2
    unfold parse_org
    rw [attribGet_some el "type" t h1, attribGet_none el "href" h2]
    rfl
  · intro h1 h2 h3
    unfold parse_org
    rw [attribGet_some el "type" t h1, attribGet_some el "href" hr h2,
        attribGet_none el "name" h3]
    rfl
  · intro h1 h2 h3 h4
    unfold parse_org
    rw [attribGet_some el "type" t h1, attribGet_some el "href" hr h2,
        attribGet_some el "name" n h3, attribGet_none el "id" h4]
    rfl
  · intro h1 h2 h3 h4
    unfold parse_ext_net
    rw [attribGet_some el "type" t h1, attribGet_some el "href" hr h2,
        attribGet_some el "name" n h3, attribGet_none el "id" h4]
    rfl
  · intro h1 h2 h3 h4 h5
    unfold parse_org
    rw [attribGet_some el "type" t h1, attribGet_some el "href" hr h2,
        attribGet_some el "name" n h3, attribGet_some el "id" i h4,
        textOfFind_none el "FullName" h5]
    rfl
  · intro h1 h2 h3 h4 h5 h6
    unfold parse_org
    rw [attribGet_some el "type" t h1, attribGet_some el "href" hr h2,
        attribGet_some el "name" n h3, attribGet_some el "id" i h4,
        textOfFind_some el "FullName" fn h5, textOfFind_none el "Description" h6]
    rfl
  · intro h1 h2 h3 h4 h5
    unfold parse_ext_net
    rw [attribGet_some el "type" t h1, attribGet_some el "href" hr h2,
        attribGet_some el "name" n h3, attribGet_some el "id" i h4,
        textOfFind_none el "Description" h5]
    rfl
  · intro hattr
    unfold parse_org_short mkOrgKw
    rw [hattr]
    rfl

/-- An org element carrying no attributes at all. -/
def orgElBare : XmlElem := .mk (vcTag "Org") [] none []

/-- An org summary element carrying exactly the identity attributes. -/
def orgElIdentityOnly : XmlElem :=
  .mk (vcTag "Org") [("type", "t"), ("href", "h"), ("name", "Acme")] none []

/-- An org element with all four mandatory attributes and a `FullName`
child but no `Description` child. -/
def orgElNoDesc : XmlElem :=
  .mk (vcTag "Org")
    [("type", "t"), ("href", "h"), ("name", "Acme"), ("id", "urn:org:1")] none
    [ .mk (vcTag "FullName") [] (some "Acme Corp") [] ]

/-- An external-network element with all four mandatory attributes and
no `Description` child. -/
def extNetElNoDesc : XmlElem :=
  .mk (vcTag "ExternalNetwork")
    [("type", "t"), ("href", "h"), ("name", "ext-a"), ("id", "urn:net:1")] none []

/-- C2 witness: a bare element fails on the first identity attribute;
a missing `Description` child fails both full decoders with
AttributeError; and the short-form decoder maps the missing optional
fields of an identity-only element to absent values. -/
theorem c2_witness :
    parse_org orgElBare = .error (.keyError "type") ∧
    parse_org orgElNoDesc = .error (.attributeError noneAttrMsg) ∧
    parse_ext_net extNetElNoDesc = .error (.attributeError noneAttrMsg) ∧
    parse_org_short orgElIdentityOnly
      = .ok ⟨"t", "h", "Acme", none, none, none, none⟩ :=
  ⟨(c2_amended_full_decoders_strict orgElBare (.mk "FN" [] none [])
      "t" "h" "Acme" "i").1 rfl,
   (c2_amended_full_decoders_strict orgElNoDesc
      (.mk (vcTag "FullName") [] (some "Acme Corp") [])
      "t" "h" "Acme" "urn:org:1").2.2.2.2.2.2.1 rfl rfl rfl rfl rfl rfl,
   (c2_amended_full_decoders_strict extNetElNoDesc (.mk "FN" [] none [])
      "t" "h" "ext-a" "urn:net:1").2.2.2.2.2.2.2.1 rfl rfl rfl rfl rfl,
   (c2_amended_full_decoders_strict orgElIdentityOnly (.mk "FN" [] none [])
      "t" "h" "Acme" "i").2.2.2.2.2.2.2.2 rfl⟩

/-! ## Claim C3 -/

/-- Structure eta for `Org`: rebuilding an org from its own fields with
the links field it already holds gives the same org. -/
theorem org_eta (org : Org) (d : LinkIndex) (hd : org.links = some d) :
    (⟨org.type, org.href, org.name, org.id, org.full_name, org.description,
      some d⟩ : Org) = org := by
  cases org
  cases hd
  rfl

/-- An org with an empty LinkIndex. -/
def orgEmptyIndex : Org :=
  ⟨"t", "http://api.example/org/3", "Empty", none, none, none, some []⟩

/-- An oracle serving an empty document for every request. -/
def fetchBlank : Fetch := fun _ _ => ⟨200, .mk "X" [] none []⟩

/-- C3 counterexample: `org_nets` on an org whose LinkIndex lacks the
orgNetwork key inserts an empty entry for that key — the index
mapping of the org after the call differs from the one it was built with. -/
theorem c3_counterexample :
    (orgNetsOp fetchBlank orgEmptyIndex).2.links = some [(orgNetworkKey, [])] ∧
    orgEmptyIndex.links = some ([] : LinkIndex) ∧
    (orgNetsOp fetchBlank orgEmptyIndex).2 ≠ orgEmptyIndex := by
  refine ⟨rfl, rfl, ?_⟩
  decide

/-- C3 amended: records are immutable except for the
`defaultdict`-backed indices: `org_nets`/`org_vdcs` reading a media
type absent from the LinkIndex of the org insert an empty entry for exactly
that key; the sequence of every other key, and every other field of the
org, is unchanged, and when the key is already present the org is
unchanged entirely. -/
theorem c3_amended_defaultdict_insertion (fetch : Fetch) (org : Org) (d : LinkIndex)
    (hd : org.links = some d) :
    ((orgNetsOp fetch org).2
      = ⟨org.type, org.href, org.name, org.id, org.full_name, org.description,
         some (ddGetItem d orgNetworkKey).2⟩) ∧
    (∀ k, k ≠ orgNetworkKey →
      alookup (ddGetItem d orgNetworkKey).2 k = alookup d k) ∧
    (alookup (ddGetItem d orgNetworkKey).2 orgNetworkKey
      = some (ddFindD d orgNetworkKey)) ∧
    ((alookup d orgNetworkKey).isSome → (orgNetsOp fetch org).2 = org) ∧
    ((orgVdcsOp fetch org).2
      = ⟨org.type, org.href, org.name, org.id, org.full_name, org.description,
         some (ddGetItem d vdcKey).2⟩) ∧
    (∀ k, k ≠ vdcKey → alookup (ddGetItem d vdcKey).2 k = alookup d k) ∧
    (alookup (ddGetItem d vdcKey).2 vdcKey = some (ddFindD d vdcKey)) ∧
    ((alookup d vdcKey).isSome → (orgVdcsOp fetch org).2 = org) := by
  refine ⟨?_, ?_, ?_, ?_, ?_, ?_, ?_, ?_⟩
  · rw [orgNetsOp_eq fetch org d hd]
  · exact fun k hk => alookup_ddGetItem_ne d orgNetworkKey k hk
  · exact alookup_ddGetItem_self d orgNetworkKey
  · intro hs
    rw [orgNetsOp_eq fetch org d hd]
    have h2 : (ddGetItem d orgNetworkKey).2 = d := by
      rw [ddGetItem_snd]
      simp [hs]
    rw [h2]
    exact org_eta org d hd
  · rw [orgVdcsOp_eq fetch org d hd]
  · exact fun k hk => alookup_ddGetItem_ne d vdcKey k hk
  · exact alookup_ddGetItem_self d vdcKey
  · intro hs
    rw [orgVdcsOp_eq fetch org d hd]
    have h2 : (ddGetItem d vdcKey).2 = d := by
      rw [ddGetItem_snd]
      simp [hs]
    rw [h2]
    exact org_eta org d hd

/-- An org whose LinkIndex already holds an (empty) orgNetwork entry. -/
def orgWithNetEntry : Org :=
  ⟨"t", "h", "E", none, none, none, some [(orgNetworkKey, [])]⟩

/-- C3 witness: when the queried key is already present the org is
returned unchanged, and a missing-key read leaves the entries of the
other keys untouched. -/
theorem c3_witness :
    (orgNetsOp fetchBlank orgWithNetEntry).2 = orgWithNetEntry ∧
    alookup (ddGetItem [(orgNetworkKey, [netLink])] vdcKey).2 orgNetworkKey
      = some [netLink] :=
  ⟨(c3_amended_defaultdict_insertion fetchBlank orgWithNetEntry
      [(orgNetworkKey, [])] rfl).2.2.2.1 rfl,
   ((c3_amended_defaultdict_insertion fetchBlank orgWithNetLink
      [(orgNetworkKey, [netLink])] rfl).2.2.2.2.2.1 orgNetworkKey
      (by decide)).trans (by rfl)⟩

/-! ## Claim C6 -/

/-- A 304 Not Modified response. -/
def resp304 : HttpResponse := ⟨304, .mk "Root" [] none []⟩

/-- An oracle answering 304 to every request. -/
def fetch304 : Fetch := fun _ _ => resp304

/-- C6 counterexample: 304 is not a 2xx status, yet `_req` with
raise-on-error true returns the response as-is instead of raising
`APIError` (`raise_for_status` only raises for 4xx/5xx). -/
theorem c6_counterexample :
    req fetch304 "get" "http://api.example/session" true = .ok resp304 ∧
    ¬ (200 ≤ resp304.status ∧ resp304.status < 300) := by
  exact ⟨rfl, by decide⟩

/-- C6 amended: with raise-on-error true, any 4xx/5xx response (status
in `[400, 600)`) is translated into an `APIError` carrying the
original status, while 1xx/2xx/3xx responses are returned as-is; with
raise-on-error false, the raw response object is always returned
without raising. -/
theorem c6_amended_4xx_5xx_to_apierror (fetch : Fetch) (method url : String) :
    (400 ≤ (fetch method url).status ∧ (fetch method url).status < 600 →
      req fetch method url true
        = .error (.apiError (httpErrMsg (fetch method url).status))) ∧
    (¬ (400 ≤ (fetch method url).status ∧ (fetch method url).status < 600) →
      req fetch method url true = .ok (fetch method url)) ∧
    req fetch method url false = .ok (fetch method url) := by
  refine ⟨?_, ?_, rfl⟩
  · intro hcond
    have hc : custom_raise_for_status (fetch method url)
        = .error (.apiError (httpErrMsg (fetch method url).status)) := by
      unfold custom_raise_for_status
      rw [if_pos hcond]
    show (match custom_raise_for_status (fetch method url) with
          | Except.error e => (Except.error e : Except VCError HttpResponse)
          | Except.ok _ => Except.ok (fetch method url))
        = Except.error (.apiError (httpErrMsg (fetch method url).status))
    rw [hc]
  · intro hcond
    have hc : custom_raise_for_status (fetch method url) = .ok () := by
      unfold custom_raise_for_status
      rw [if_neg hcond]
    show (match custom_raise_for_status (fetch method url) with
          | Except.error e => (Except.error e : Except VCError HttpResponse)
          | Except.ok _ => Except.ok (fetch method url))
        = Except.ok (fetch method url)
    rw [hc]

/-- A 404 Not Found response. -/
def resp404 : HttpResponse := ⟨404, .mk "Error" [] none []⟩

/-- An oracle answering 404 to every request. -/
def fetch404 : Fetch := fun _ _ => resp404

/-- C6 witness: a 404 raises APIError carrying the status when
raise-on-error is true, and is returned raw when it is false. -/
theorem c6_witness :
    req fetch404 "get" "u" true = .error (.apiError (httpErrMsg 404)) ∧
    req fetch404 "get" "u" false = .ok resp404 :=
  ⟨(c6_amended_4xx_5xx_to_apierror fetch404 "get" "u").1 (by decide),
   (c6_amended_4xx_5xx_to_apierror fetch404 "get" "u").2.2⟩

end VCloudTools
